import Mathlib

/-!
Shallow embedding of the mkucmus/image-uploader pipeline.

The repository synchronizes product cover images into a Shopware catalog:
it paginates the product search (`ShopwareClient.fetchAllProducts` /
`fetchProductsWithoutImages` in src/shopware.ts), generates images
(`ImageGenerator` in src/openai.ts), runs the create-media / upload-bytes /
associate / set-cover protocol (`uploadMedia`, `assignMediaToProduct`), and
drives a per-item loop in batch or interactive mode (`main` in src/index.ts).

Network responses, operator answers, generation outcomes and the filesystem
cache are modelled as explicit environments; the definitions below transcribe
the TypeScript control flow, including JavaScript truthiness where the source
relies on it (`!p.coverId`, `if (productDescription)`).
-/

namespace ImageUploader

/-! ## Data model (src/types.ts) -/

/-- `ShopwareMedia` from src/types.ts. -/
structure ShopwareMedia where
  id : String
  url : String
  fileName : String
  mimeType : String
deriving DecidableEq, Repr

/-- The `translated` sub-object of `ShopwareProduct` from src/types.ts. -/
structure TranslatedInfo where
  name : String
  description : Option String
deriving DecidableEq, Repr

/-- `ShopwareProduct` from src/types.ts. `string | null` fields become
`Option String`. -/
structure ShopwareProduct where
  id : String
  name : String
  description : Option String
  productNumber : String
  coverId : Option String
  cover : Option ShopwareMedia
  translated : TranslatedInfo
deriving DecidableEq, Repr

/-- `ShopwareSearchResponse<ShopwareProduct>` from src/types.ts. -/
structure ShopwareSearchResponse where
  total : Nat
  data : List ShopwareProduct
deriving DecidableEq, Repr

/-- Status of a `ProcessingResult` (src/types.ts). -/
inductive PStatus where
  | uploaded
  | skipped
  | failed
deriving DecidableEq, Repr

/-- `ProcessingResult` from src/types.ts. -/
structure ProcessingResult where
  productId : String
  productName : String
  status : PStatus
  error : Option String := none
deriving DecidableEq, Repr

/-! ## JavaScript truthiness helpers

The source tests strings with `!x` and `if (x)`: for a `string | null`
value this is false exactly when the value is `null` or the empty string. -/

/-- JS falsiness of a `string | null` value: `null` or `""`. Transcribes the
`!p.coverId` test in src/shopware.ts lines 101 and 154. -/
def coverFalsy : Option String → Bool
  | none => true
  | some s => s == ""

/-- `a || b` on `string | null` values as the source uses it
(`product.translated?.name || product.name` style): keep `a` when truthy. -/
def orFalsyStr (a : String) (b : String) : String :=
  if a == "" then b else a

/-- `product.translated?.description || product.description`
(src/index.ts line 91). -/
def orFalsyOpt (a : Option String) (b : Option String) : Option String :=
  match a with
  | none => b
  | some s => if s == "" then b else some s

/-- Display name of a product, `product.translated?.name || product.name`
(src/index.ts line 90). -/
def displayName (p : ShopwareProduct) : String :=
  orFalsyStr p.translated.name p.name

/-! ## Pagination (src/shopware.ts)

A page fetch is an environment `Nat → Except String ShopwareSearchResponse`
indexed by the 1-based page number; `.error` models a non-ok HTTP response,
whose message the source turns into a thrown `Error`.  The `while (true)`
loop is given explicit fuel; `none` means the fuel ran out, which never
happens for the servers considered in the theorems. -/

/-- Loop body of `ShopwareClient.fetchAllProducts` (src/shopware.ts lines
109-152), instrumented with the number of page fetches performed.
Arguments after the environment: fuel, `page`, `allProducts`, fetch count. -/
def fetchAllProductsAux (fetchPage : Nat → Except String ShopwareSearchResponse) :
    Nat → Nat → List ShopwareProduct → Nat →
    Option (Except String (List ShopwareProduct × Nat))
  | 0, _, _, _ => none
  | fuel + 1, page, allProducts, fetches =>
    match fetchPage page with
    | .error e => some (.error e)
    | .ok data =>
      let acc := allProducts ++ data.data
      if data.total ≤ acc.length ∨ data.data.length < 25 then
        some (.ok (acc, fetches + 1))
      else
        fetchAllProductsAux fetchPage fuel (page + 1) acc (fetches + 1)

/-- Return value of `fetchAllProducts`: `{ total, withoutImages }`
(src/shopware.ts line 155). -/
structure FetchAllResult where
  total : Nat
  withoutImages : List ShopwareProduct
deriving DecidableEq, Repr

/-- `ShopwareClient.fetchAllProducts` (src/shopware.ts lines 104-156):
paginate, then return the accumulated count and the products whose
`coverId` is falsy, together with the instrumented fetch count. -/
def fetchAllProducts (fetchPage : Nat → Except String ShopwareSearchResponse)
    (fuel : Nat) : Option (Except String (FetchAllResult × Nat)) :=
  (fetchAllProductsAux fetchPage fuel 1 [] 0).map (Except.map (fun r =>
    ({ total := r.1.length,
       withoutImages := r.1.filter (fun p => coverFalsy p.coverId) }, r.2)))

/-- Loop body of `ShopwareClient.fetchProductsWithoutImages`
(src/shopware.ts lines 55-99), transcribed separately from
`fetchAllProductsAux`; the two source loops are syntactically parallel. -/
def fetchProductsWithoutImagesAux
    (fetchPage : Nat → Except String ShopwareSearchResponse) :
    Nat → Nat → List ShopwareProduct → Nat →
    Option (Except String (List ShopwareProduct × Nat))
  | 0, _, _, _ => none
  | fuel + 1, page, allProducts, fetches =>
    match fetchPage page with
    | .error e => some (.error e)
    | .ok data =>
      let acc := allProducts ++ data.data
      if data.total ≤ acc.length ∨ data.data.length < 25 then
        some (.ok (acc, fetches + 1))
      else
        fetchProductsWithoutImagesAux fetchPage fuel (page + 1) acc (fetches + 1)

/-- `ShopwareClient.fetchProductsWithoutImages` (src/shopware.ts lines
50-102): paginate, then return `allProducts.filter((p) => !p.coverId)`. -/
def fetchProductsWithoutImages
    (fetchPage : Nat → Except String ShopwareSearchResponse)
    (fuel : Nat) : Option (Except String (List ShopwareProduct × Nat)) :=
  (fetchProductsWithoutImagesAux fetchPage fuel 1 [] 0).map (Except.map (fun r =>
    (r.1.filter (fun p => coverFalsy p.coverId), r.2)))

/-- A well-behaved paginated server holding the fixed list `l`: every page
reports `total = l.length` and serves the 25-item slice starting at
`(page - 1) * 25`. -/
def pagedServer (l : List ShopwareProduct) (page : Nat) :
    Except String ShopwareSearchResponse :=
  .ok { total := l.length, data := (l.drop ((page - 1) * 25)).take 25 }

/-- A concrete product lacking a cover. -/
def coverlessProduct (s : String) : ShopwareProduct :=
  { id := s, name := s, description := none, productNumber := s,
    coverId := none, cover := none,
    translated := { name := "", description := none } }

/-- A concrete list of `n` products, all lacking a cover. -/
def mkProducts (n : Nat) : List ShopwareProduct :=
  (List.range n).map (fun _ => coverlessProduct "p")

/-! ## Upload / associate / set-cover protocol (src/shopware.ts lines 158-226)

Each HTTP call is an environment-supplied response; the thrown `Error`
messages of the source distinguish the failing step, so errors are modelled
as a step-tagged inductive.  The list of requests actually issued is
recorded so that "step never attempted" is statable. -/

/-- The observable fields of a `fetch` response the protocol code reads. -/
structure HttpResponse where
  ok : Bool
  status : Nat
  body : String
  location : Option String := none
deriving DecidableEq, Repr

/-- The requests the protocol can issue. `patchCover` records the `coverId`
value sent in the PATCH body (src/shopware.ts line 218). -/
inductive SwRequest where
  | createMedia
  | uploadFile
  | createAssoc
  | patchCover (coverId : String)
deriving DecidableEq, Repr

/-- The errors thrown by `uploadMedia` / `assignMediaToProduct`, tagged by
the step named in the corresponding `Error` message. -/
inductive SwError where
  | createMedia (status : Nat) (body : String)
  | uploadFile (status : Nat) (body : String)
  | createAssoc (status : Nat) (body : String)
  | assocLocation
  | setCover (status : Nat) (body : String)
deriving DecidableEq, Repr

/-- The four HTTP responses one `uploadMedia` + `assignMediaToProduct`
sequence can observe. -/
structure ProtocolEnv where
  createRes : HttpResponse
  uploadRes : HttpResponse
  assocRes : HttpResponse
  coverRes : HttpResponse
deriving DecidableEq, Repr

/-- `ShopwareClient.uploadMedia` (src/shopware.ts lines 158-190). `mediaId`
stands for the locally generated `uuid()`. Returns the result and the
requests issued. -/
def uploadMedia (createRes uploadRes : HttpResponse) (mediaId : String) :
    Except SwError String × List SwRequest :=
  if createRes.ok = false then
    (.error (.createMedia createRes.status createRes.body), [.createMedia])
  else if uploadRes.ok = false then
    (.error (.uploadFile uploadRes.status uploadRes.body),
     [.createMedia, .uploadFile])
  else
    (.ok mediaId, [.createMedia, .uploadFile])

/-- JavaScript `String.prototype.split` with a one-character separator:
every occurrence splits, and leading, trailing and adjacent separators
contribute empty fields, so the result is never the empty list. -/
def splitOnChar (sep : Char) : List Char → List (List Char)
  | [] => [[]]
  | c :: rest =>
    let r := splitOnChar sep rest
    if c = sep then [] :: r
    else (c :: r.headD []) :: r.tail

/-- `assocRes.headers.get("location")?.split("/").pop()`
(src/shopware.ts line 208). `split` never yields an empty array, so `pop`
is the last field. -/
def productMediaIdOf (location : Option String) : Option String :=
  location.map (fun s => String.mk ((splitOnChar '/' s.data).getLastD []))

/-- `ShopwareClient.assignMediaToProduct` (src/shopware.ts lines 192-226).
Returns the result and the requests issued. -/
def assignMediaToProduct (assocRes coverRes : HttpResponse) :
    Except SwError Unit × List SwRequest :=
  if assocRes.ok = false then
    (.error (.createAssoc assocRes.status assocRes.body), [.createAssoc])
  else
    match productMediaIdOf assocRes.location with
    | none => (.error .assocLocation, [.createAssoc])
    | some productMediaId =>
      if productMediaId == "" then
        (.error .assocLocation, [.createAssoc])
      else if coverRes.ok = false then
        (.error (.setCover coverRes.status coverRes.body),
         [.createAssoc, .patchCover productMediaId])
      else
        (.ok (), [.createAssoc, .patchCover productMediaId])

/-- The upload-then-assign sequence the orchestrator runs per item
(src/index.ts lines 186-190): `assignMediaToProduct` is reached only when
`uploadMedia` returned normally. -/
def uploadAndAssign (env : ProtocolEnv) (mediaId : String) :
    Except SwError String × List SwRequest :=
  match uploadMedia env.createRes env.uploadRes mediaId with
  | (.error e, trace) => (.error e, trace)
  | (.ok mid, trace) =>
    match assignMediaToProduct env.assocRes env.coverRes with
    | (.error e, trace2) => (.error e, trace ++ trace2)
    | (.ok _, trace2) => (.ok mid, trace ++ trace2)

/-! ## Prompt building (src/openai.ts lines 21-29)

`buildPrompt` is pure given the loaded template.  The description is
sanitized with `replace(/<[^>]*>/g, " ")` then `replace(/\s+/g, " ")` then
`trim()`; the regexes are transcribed as character-list transducers. -/

/-- ASCII whitespace as matched by the regex `\s` (the source's regex also
matches Unicode space characters, which the theorems do not exercise). -/
def isJsSpace (c : Char) : Bool :=
  c = ' ' ∨ c = '\t' ∨ c = '\n' ∨ c = '\r' ∨ c = '\x0b' ∨ c = '\x0c'

/-- `replace(/<[^>]*>/g, " ")`: each maximal `<...>` group (no `>` inside)
becomes one space; a `<` never followed by `>` stays literal.  The second
argument buffers the characters read since an unclosed `<`, in reverse. -/
def stripTagsAux : List Char → Option (List Char) → List Char
  | [], none => []
  | [], some pending => '<' :: pending.reverse
  | c :: rest, none =>
    if c = '<' then stripTagsAux rest (some []) else c :: stripTagsAux rest none
  | c :: rest, some pending =>
    if c = '>' then ' ' :: stripTagsAux rest none
    else stripTagsAux rest (some (c :: pending))

/-- `replace(/\s+/g, " ")`: collapse every whitespace run to one space.
The flag records whether a run is already being collapsed. -/
def collapseWsAux : Bool → List Char → List Char
  | _, [] => []
  | inRun, c :: rest =>
    if isJsSpace c then
      if inRun then collapseWsAux true rest else ' ' :: collapseWsAux true rest
    else c :: collapseWsAux false rest

/-- `trim()` over the same whitespace class. -/
def jsTrim (l : List Char) : List Char :=
  ((l.dropWhile isJsSpace).reverse.dropWhile isJsSpace).reverse

/-- The `cleaned` description (src/openai.ts line 25). -/
def sanitizeDescription (d : String) : String :=
  String.mk (jsTrim (collapseWsAux false (stripTagsAux d.data none)))

/-- `ImageGenerator.buildPrompt` (src/openai.ts lines 21-29); `template` is
the instance's loaded prompt template.  `if (productDescription)` is JS
truthiness: `null` and `""` both omit the description line. -/
def buildPrompt (template productName : String)
    (productDescription : Option String) : String :=
  let prompt := template ++ "\n\nProduct name: " ++ productName
  match productDescription with
  | none => prompt
  | some d =>
    if d == "" then prompt
    else prompt ++ "\nProduct description: " ++ sanitizeDescription d

/-! ## Orchestrator (src/index.ts lines 86-197)

The per-item loop of `main` in a non-dry run.  External effects are oracles
indexed by per-kind call counters held in the loop state: operator answers
(already trimmed and lower-cased by `ask`), `imageGen.generate` outcomes
(`.error` is the thrown message), and the `uploadMedia` /
`assignMediaToProduct` outcomes at their call boundary.  The `temp/`
preview-file cache is an association list from product id to bytes. -/

/-- Image bytes. -/
abbrev Bytes := List Nat

/-- The run environment: drive mode and the effect oracles. -/
structure OrchestratorEnv where
  batch : Bool
  answers : Nat → String
  gen : Nat → Except String Bytes
  upload : Nat → Except String String
  assign : Nat → Except String Unit

/-- Mutable state of the per-item loop: the preview cache, the accumulated
`results`, and one call counter per oracle. -/
structure LoopSt where
  cache : List (String × Bytes)
  results : List ProcessingResult
  askCount : Nat
  genCalls : Nat
  uploadCalls : Nat
  assignCalls : Nat
deriving DecidableEq, Repr

/-- `fs.existsSync(previewPath)` (src/index.ts line 94). -/
def cacheHas (cache : List (String × Bytes)) (id : String) : Bool :=
  (cache.lookup id).isSome

/-- `fs.readFileSync(previewPath)`, called only when the entry exists. -/
def cacheRead (cache : List (String × Bytes)) (id : String) : Bytes :=
  (cache.lookup id).getD []

/-- `fs.writeFileSync(previewPath, imageBuffer)`; a second write for the
same id overwrites. -/
def cacheWrite (cache : List (String × Bytes)) (id : String) (b : Bytes) :
    List (String × Bytes) :=
  (id, b) :: cache.eraseP (fun e => e.1 == id)

/-- Outcome of one iteration: fall through to the next item, or `break` out
of the loop (the two `q` answers). -/
inductive ItemStep where
  | cont
  | quit
deriving DecidableEq, Repr

/-- Append a `skipped` result (src/index.ts lines 134, 141, 154, 173, 178). -/
def pushSkipped (st : LoopSt) (p : ShopwareProduct) : LoopSt :=
  { st with results := st.results ++
      [{ productId := p.id, productName := displayName p,
         status := .skipped }] }

/-- The shared upload tail of the `try` block (src/index.ts lines 186-191):
`uploadMedia`, then `assignMediaToProduct`, then record `uploaded`.  Each
call bumps its counter; a thrown message is returned as `.error` together
with the state reached. -/
def uploadSection (env : OrchestratorEnv) (p : ShopwareProduct)
    (st : LoopSt) : Except (String × LoopSt) (LoopSt × ItemStep) :=
  match env.upload st.uploadCalls with
  | .error m => .error (m, { st with uploadCalls := st.uploadCalls + 1 })
  | .ok _mediaId =>
    match env.assign st.assignCalls with
    | .error m =>
      .error (m, { st with uploadCalls := st.uploadCalls + 1,
                           assignCalls := st.assignCalls + 1 })
    | .ok _ =>
      .ok ({ st with uploadCalls := st.uploadCalls + 1,
                     assignCalls := st.assignCalls + 1,
                     results := st.results ++
                       [{ productId := p.id, productName := displayName p,
                          status := .uploaded }] }, .cont)

/-- The body of the per-item `try` block (src/index.ts lines 102-191).
`.error (m, st)` is a throw of message `m` with the state reached; `.ok`
carries whether the iteration falls through (`continue`/end) or `break`s.
Each `ask` and each `imageGen.generate` consumes its counter. -/
def itemBody (env : OrchestratorEnv) (p : ShopwareProduct) (st0 : LoopSt) :
    Except (String × LoopSt) (LoopSt × ItemStep) :=
  let hasExistingImage := cacheHas st0.cache p.id
  if env.batch then
    if hasExistingImage then
      uploadSection env p st0
    else
      let st1 := { st0 with genCalls := st0.genCalls + 1 }
      match env.gen st0.genCalls with
      | .error m => .error (m, st1)
      | .ok bytes =>
        uploadSection env p { st1 with cache := cacheWrite st1.cache p.id bytes }
  else
    if hasExistingImage then
      let uploadAnswer := env.answers st0.askCount
      let st1 := { st0 with askCount := st0.askCount + 1 }
      if uploadAnswer == "q" then .ok (st1, .quit)
      else if uploadAnswer == "r" then
        let st2 := { st1 with genCalls := st1.genCalls + 1 }
        match env.gen st1.genCalls with
        | .error m => .error (m, st2)
        | .ok bytes =>
          let st3 := { st2 with cache := cacheWrite st2.cache p.id bytes }
          let confirm := env.answers st3.askCount
          let st4 := { st3 with askCount := st3.askCount + 1 }
          if confirm != "y" then .ok (pushSkipped st4 p, .cont)
          else uploadSection env p st4
      else if uploadAnswer == "y" then
        uploadSection env p st1
      else .ok (pushSkipped st1 p, .cont)
    else
      let generateAnswer := env.answers st0.askCount
      let st1 := { st0 with askCount := st0.askCount + 1 }
      if generateAnswer == "q" then .ok (st1, .quit)
      else if generateAnswer != "y" then .ok (pushSkipped st1 p, .cont)
      else
        let st2 := { st1 with genCalls := st1.genCalls + 1 }
        match env.gen st1.genCalls with
        | .error m => .error (m, st2)
        | .ok bytes =>
          let st3 := { st2 with cache := cacheWrite st2.cache p.id bytes }
          let uploadAnswer := env.answers st3.askCount
          let st4 := { st3 with askCount := st3.askCount + 1 }
          if uploadAnswer == "r" then
            let st5 := { st4 with genCalls := st4.genCalls + 1 }
            match env.gen st4.genCalls with
            | .error m => .error (m, st5)
            | .ok bytes2 =>
              let st6 := { st5 with cache := cacheWrite st5.cache p.id bytes2 }
              let confirm := env.answers st6.askCount
              let st7 := { st6 with askCount := st6.askCount + 1 }
              if confirm != "y" then .ok (pushSkipped st7 p, .cont)
              else uploadSection env p st7
          else if uploadAnswer != "y" then .ok (pushSkipped st4 p, .cont)
          else uploadSection env p st4

/-- One full iteration of the per-item loop: the `try` body with its
`catch` (src/index.ts lines 192-196), which records `failed` with the
thrown message and falls through to the next item. -/
def processItem (env : OrchestratorEnv) (p : ShopwareProduct)
    (st : LoopSt) : LoopSt × ItemStep :=
  match itemBody env p st with
  | .ok r => r
  | .error (m, stE) =>
    ({ stE with results := stE.results ++
        [{ productId := p.id, productName := displayName p,
           status := .failed, error := some m }] }, .cont)

/-- The `for` loop over `withoutImages` (src/index.ts lines 88-197):
process items in order until the list ends or an iteration `break`s. -/
def mainLoop (env : OrchestratorEnv) :
    List ShopwareProduct → LoopSt → LoopSt
  | [], st => st
  | p :: rest, st =>
    match processItem env p st with
    | (st1, .cont) => mainLoop env rest st1
    | (st1, .quit) => st1

/-- Loop state at the start of a run. -/
def initSt : LoopSt :=
  { cache := [], results := [], askCount := 0, genCalls := 0,
    uploadCalls := 0, assignCalls := 0 }

/-! ## Concrete instances used by counterexamples and witnesses -/

/-- A product whose `coverId` is the empty string: non-null but JS-falsy. -/
def emptyCoverProduct : ShopwareProduct :=
  { id := "bad", name := "B", description := none, productNumber := "1",
    coverId := some "", cover := none,
    translated := { name := "", description := none } }

/-- A product with a genuine cover reference. -/
def coveredProduct : ShopwareProduct :=
  { id := "good", name := "G", description := none, productNumber := "2",
    coverId := some "cafe", cover := none,
    translated := { name := "", description := none } }

/-- Protocol responses where the media record is created but the byte
upload comes back non-ok. -/
def envUploadFails : ProtocolEnv :=
  { createRes := { ok := true, status := 204, body := "" },
    uploadRes := { ok := false, status := 500, body := "disk full" },
    assocRes := { ok := true, status := 204, body := "" },
    coverRes := { ok := true, status := 204, body := "" } }

/-- An association response whose `location` header ends in a slash, so its
last path segment is empty. -/
def assocResEmptySegment : HttpResponse :=
  { ok := true, status := 204, body := "",
    location := some "/api/product-media/" }

/-- A generic ok response. -/
def okResponse : HttpResponse := { ok := true, status := 204, body := "" }

/-- Interactive run: item 1 is generated and uploaded, the prompt for item
2 is answered `q`. -/
def envC4 : OrchestratorEnv :=
  { batch := false,
    answers := fun n => if n == 0 then "y" else if n == 1 then "y" else "q",
    gen := fun _ => .ok [1],
    upload := fun _ => .ok "media1",
    assign := fun _ => .ok () }

/-- The five products of the interactive-quit scenario. -/
def productsC4 : List ShopwareProduct :=
  [coverlessProduct "1", coverlessProduct "2", coverlessProduct "3",
   coverlessProduct "4", coverlessProduct "5"]

/-- The loop state after item 1 of the interactive-quit scenario. -/
def stC4after1 : LoopSt :=
  { cache := [("1", [1])],
    results := [{ productId := "1", productName := "1", status := .uploaded }],
    askCount := 2, genCalls := 1, uploadCalls := 1, assignCalls := 1 }

/-- Batch run where every generation and every protocol call succeeds. -/
def envC6 : OrchestratorEnv :=
  { batch := true, answers := fun _ => "",
    gen := fun _ => .ok [7], upload := fun _ => .ok "media1",
    assign := fun _ => .ok () }

/-- Start state of the batch scenario: product `a` has a cache entry. -/
def stC6 : LoopSt := { initSt with cache := [("a", [0])] }

/-- Batch run whose first generation call throws. -/
def envGenFails : OrchestratorEnv :=
  { batch := true, answers := fun _ => "",
    gen := fun _ => .error "generation exploded",
    upload := fun _ => .ok "media1", assign := fun _ => .ok () }

/-- Interactive run for the fresh-generation prompt: generate is answered
`y`, the upload prompt is answered `q`. -/
def envC8 : OrchestratorEnv :=
  { batch := false,
    answers := fun n => if n == 0 then "y" else "q",
    gen := fun _ => .ok [3],
    upload := fun _ => .ok "media1", assign := fun _ => .ok () }

/-- A paged server over a mixed covered / uncovered list. -/
def mixedList : List ShopwareProduct :=
  [coveredProduct, coverlessProduct "u1", emptyCoverProduct, coverlessProduct "u2"]

/-! ## Theorems -/

/-- Claim C7: `buildPrompt` is a deterministic function of its inputs (it
is a Lean function of `(template, name, description)`); with a `null`
description the description line is omitted entirely, and a present
description has markup tags stripped and whitespace collapsed before
interpolation, so the prompt built from `"<b>Desc</b>  x"` ends in the
sanitized text and contains `Desc x`. -/
theorem buildPrompt_sanitizes :
    (∀ template name, buildPrompt template name none =
      template ++ "\n\nProduct name: " ++ name) ∧
    sanitizeDescription "<b>Desc</b>  x" = "Desc x" ∧
    (∀ template name, buildPrompt template name (some "<b>Desc</b>  x") =
      buildPrompt template name none ++ "\nProduct description: " ++ "Desc x") ∧
    (∀ template name,
      "Desc x".data <:+:
        (buildPrompt template name (some "<b>Desc</b>  x")).data) := by
  refine ⟨fun t n => rfl, rfl, fun t n => rfl, fun t n => ?_⟩
  have h : (buildPrompt t n (some "<b>Desc</b>  x")).data =
      (buildPrompt t n none ++ "\nProduct description: ").data ++ "Desc x".data := by
    rw [show buildPrompt t n (some "<b>Desc</b>  x") =
        (buildPrompt t n none ++ "\nProduct description: ") ++ "Desc x" from rfl,
      String.data_append]
  rw [h]
  exact (List.suffix_append _ _).isInfix

/-- Claim C1 as stated is false at `T = 0`: the `while (true)` loop fetches
page 1 before testing the break condition, so a listing over an empty
channel performs 1 page fetch while `ceil (0 / 25) = 0`. -/
theorem fetchAllProducts_zero_fetch_counterexample :
    fetchAllProducts (pagedServer (mkProducts 0)) 4 =
      some (.ok ({ total := 0, withoutImages := [] }, 1)) ∧
    (0 + 25 - 1) / 25 = 0 :=
  ⟨rfl, rfl⟩

/-- Claim C1 (amended): for T in {0, 1, 25, 26, 49, 50} and page size 25,
`fetchAllProducts` over a well-behaved server with total T accumulates
exactly T items and performs exactly `max 1 (ceil (T / 25))` page fetches,
terminating on a short page when T is not a multiple of 25. -/
theorem fetchAllProducts_pagination :
    (fetchAllProducts (pagedServer (mkProducts 0)) 4 =
      some (.ok ({ total := 0, withoutImages := mkProducts 0 },
        max 1 ((0 + 25 - 1) / 25)))) ∧
    (fetchAllProducts (pagedServer (mkProducts 1)) 4 =
      some (.ok ({ total := 1, withoutImages := mkProducts 1 },
        max 1 ((1 + 25 - 1) / 25)))) ∧
    (fetchAllProducts (pagedServer (mkProducts 25)) 4 =
      some (.ok ({ total := 25, withoutImages := mkProducts 25 },
        max 1 ((25 + 25 - 1) / 25)))) ∧
    (fetchAllProducts (pagedServer (mkProducts 26)) 4 =
      some (.ok ({ total := 26, withoutImages := mkProducts 26 },
        max 1 ((26 + 25 - 1) / 25)))) ∧
    (fetchAllProducts (pagedServer (mkProducts 49)) 4 =
      some (.ok ({ total := 49, withoutImages := mkProducts 49 },
        max 1 ((49 + 25 - 1) / 25)))) ∧
    (fetchAllProducts (pagedServer (mkProducts 50)) 4 =
      some (.ok ({ total := 50, withoutImages := mkProducts 50 },
        max 1 ((50 + 25 - 1) / 25)))) :=
  ⟨rfl, rfl, rfl, rfl, rfl, rfl⟩

/-- The two pagination loops of src/shopware.ts are the same function of
the page-response sequence. -/
theorem fetchAux_eq (fetchPage : Nat → Except String ShopwareSearchResponse) :
    ∀ fuel page acc n,
      fetchProductsWithoutImagesAux fetchPage fuel page acc n =
        fetchAllProductsAux fetchPage fuel page acc n := by
  intro fuel
  induction fuel with
  | zero => intro page acc n; rfl
  | succ fuel ih =>
    intro page acc n
    simp only [fetchProductsWithoutImagesAux, fetchAllProductsAux]
    cases fetchPage page with
    | error e => rfl
    | ok data =>
      simp only
      split
      · rfl
      · exact ih _ _ _

/-- Claim C10: `fetchProductsWithoutImages` and the `withoutImages`
component of `fetchAllProducts` are equivalent: on the same sequence of
page responses they run the identical accumulation and termination logic,
and the former returns exactly the latter's cover-less sublist. -/
theorem listing_refinement :
    (∀ fetchPage fuel page acc n,
      fetchProductsWithoutImagesAux fetchPage fuel page acc n =
        fetchAllProductsAux fetchPage fuel page acc n) ∧
    (∀ fetchPage fuel,
      fetchProductsWithoutImages fetchPage fuel =
        (fetchAllProducts fetchPage fuel).map
          (Except.map (fun r => (r.1.withoutImages, r.2)))) := by
  refine ⟨fun fetchPage => fetchAux_eq fetchPage, fun fetchPage fuel => ?_⟩
  simp only [fetchProductsWithoutImages, fetchAllProducts, fetchAux_eq]
  cases fetchAllProductsAux fetchPage fuel 1 [] 0 with
  | none => rfl
  | some r =>
    cases r with
    | error e => rfl
    | ok v => rfl

/-- Claim C5 as stated is false: the filter is JS truthiness `!p.coverId`,
so a product whose `coverId` is the empty string — non-null — is included
in `withoutImages`. -/
theorem fetchAllProducts_filter_counterexample :
    fetchAllProducts (pagedServer [emptyCoverProduct]) 2 =
      some (.ok ({ total := 1, withoutImages := [emptyCoverProduct] }, 1)) ∧
    emptyCoverProduct.coverId ≠ none :=
  ⟨rfl, by decide⟩

/-- Claim C5 (amended): whenever the pagination loop returns an accumulated
list, `withoutImages` is exactly its sublist of items with a JS-falsy cover
reference (absent or empty string); an item with a present non-empty
`coverId` is never included. -/
theorem fetchAllProducts_filter
    (fetchPage : Nat → Except String ShopwareSearchResponse)
    (fuel n : Nat) (acc : List ShopwareProduct)
    (h : fetchAllProductsAux fetchPage fuel 1 [] 0 = some (.ok (acc, n))) :
    fetchAllProducts fetchPage fuel =
      some (.ok ({ total := acc.length,
                   withoutImages :=
                     acc.filter (fun p => coverFalsy p.coverId) }, n)) ∧
    ∀ p ∈ acc.filter (fun p => coverFalsy p.coverId),
      p.coverId = none ∨ p.coverId = some "" := by
  constructor
  · simp [fetchAllProducts, h, Except.map]
  · intro p hp
    have hf : coverFalsy p.coverId = true := (List.mem_filter.mp hp).2
    cases hc : p.coverId with
    | none => exact Or.inl rfl
    | some s =>
      rw [hc] at hf
      simp only [coverFalsy, beq_iff_eq] at hf
      exact Or.inr (by rw [hf])

/-- Witness for the amended C5 on a concrete mixed page: the result keeps
the two cover-less items and the empty-cover item and drops the covered
one. -/
theorem fetchAllProducts_filter_witness :
    fetchAllProductsAux (pagedServer mixedList) 2 1 [] 0 =
      some (.ok (mixedList, 1)) ∧
    fetchAllProducts (pagedServer mixedList) 2 =
      some (.ok ({ total := mixedList.length,
                   withoutImages :=
                     mixedList.filter (fun p => coverFalsy p.coverId) }, 1)) ∧
    ∀ p ∈ mixedList.filter (fun p => coverFalsy p.coverId),
      p.coverId = none ∨ p.coverId = some "" :=
  ⟨rfl, (fetchAllProducts_filter (pagedServer mixedList) 2 1 mixedList rfl).1,
    (fetchAllProducts_filter (pagedServer mixedList) 2 1 mixedList rfl).2⟩

/-- Claim C2: when the create-media step succeeds and the byte upload
returns non-ok, the call errors with the upload-step error, the association
and cover-patch requests are never issued, and no further request --- in
particular no rollback of the created media record --- is made: the trace
is exactly create-media then upload. -/
theorem upload_failure_stops_protocol (env : ProtocolEnv) (mediaId : String)
    (h1 : env.createRes.ok = true) (h2 : env.uploadRes.ok = false) :
    uploadAndAssign env mediaId =
      (.error (.uploadFile env.uploadRes.status env.uploadRes.body),
        [.createMedia, .uploadFile]) ∧
    SwRequest.createAssoc ∉ (uploadAndAssign env mediaId).2 ∧
    ∀ v, SwRequest.patchCover v ∉ (uploadAndAssign env mediaId).2 := by
  have hm : uploadAndAssign env mediaId =
      (.error (.uploadFile env.uploadRes.status env.uploadRes.body),
        [.createMedia, .uploadFile]) := by
    simp [uploadAndAssign, uploadMedia, h1, h2]
  refine ⟨hm, ?_, ?_⟩
  · rw [hm]; simp
  · intro v; rw [hm]; simp

/-- Witness for C2 at a concrete environment where the upload step returns
HTTP 500. -/
theorem upload_failure_stops_protocol_witness :
    envUploadFails.createRes.ok = true ∧ envUploadFails.uploadRes.ok = false ∧
    uploadAndAssign envUploadFails "abc123" =
      (.error (.uploadFile 500 "disk full"), [.createMedia, .uploadFile]) :=
  ⟨rfl, rfl, (upload_failure_stops_protocol envUploadFails "abc123" rfl rfl).1⟩

/-- Claim C9: if the association-creation response is ok but its `location`
header is absent or has an empty last path segment, `assignMediaToProduct`
throws before the cover PATCH is issued; dually, whenever a cover PATCH is
issued its `coverId` payload is precisely the non-empty last segment read
back from the association response. -/
theorem assign_location_guard (assocRes coverRes : HttpResponse) :
    (assocRes.ok = true →
      (productMediaIdOf assocRes.location = none ∨
        productMediaIdOf assocRes.location = some "") →
      assignMediaToProduct assocRes coverRes =
        (.error .assocLocation, [.createAssoc])) ∧
    (∀ v, SwRequest.patchCover v ∈ (assignMediaToProduct assocRes coverRes).2 →
      assocRes.ok = true ∧ productMediaIdOf assocRes.location = some v ∧
        v ≠ "") := by
  constructor
  · intro hok hloc
    rcases hloc with hl | hl <;>
      simp [assignMediaToProduct, hok, hl]
  · intro v hv
    by_cases hok : assocRes.ok = true
    · cases hl : productMediaIdOf assocRes.location with
      | none => simp [assignMediaToProduct, hok, hl] at hv
      | some pm =>
        by_cases hpm : pm = ""
        · simp [assignMediaToProduct, hok, hl, hpm] at hv
        · by_cases hcov : coverRes.ok = true <;>
            simp [assignMediaToProduct, hok, hl, hpm, hcov] at hv <;>
            subst hv <;> exact ⟨hok, rfl, hpm⟩
    · have hok' : assocRes.ok = false := by
        cases h : assocRes.ok
        · rfl
        · exact absurd h hok
      simp [assignMediaToProduct, hok'] at hv

/-- A cache entry is visible immediately after `cacheWrite` for its id. -/
theorem cacheHas_write (cache : List (String × Bytes)) (id : String)
    (b : Bytes) : cacheHas (cacheWrite cache id b) id = true := by
  simp [cacheHas, cacheWrite, List.lookup]

/-- What the shared upload tail does to the loop state: on success it
appends exactly one `uploaded` result and bumps the upload and assign
counters; on a thrown error the results, generation counter and cache are
untouched; in both cases `uploadMedia` was invoked exactly once. -/
theorem uploadSection_spec (env : OrchestratorEnv) (p : ShopwareProduct)
    (st : LoopSt) :
    (∀ st1 c, uploadSection env p st = .ok (st1, c) →
      c = .cont ∧
      st1.results = st.results ++
        [{ productId := p.id, productName := displayName p,
           status := .uploaded }] ∧
      st1.genCalls = st.genCalls ∧ st1.cache = st.cache ∧
      st1.uploadCalls = st.uploadCalls + 1) ∧
    (∀ m stE, uploadSection env p st = .error (m, stE) →
      stE.results = st.results ∧ stE.genCalls = st.genCalls ∧
      stE.cache = st.cache ∧ stE.uploadCalls = st.uploadCalls + 1) := by
  unfold uploadSection
  cases env.upload st.uploadCalls with
  | error m =>
    constructor
    · intro st1 c h; exact absurd h (by simp)
    · intro m' stE h
      simp only [Except.error.injEq, Prod.mk.injEq] at h
      obtain ⟨-, h2⟩ := h
      subst h2; simp
  | ok mid =>
    cases env.assign st.assignCalls with
    | error m =>
      constructor
      · intro st1 c h; exact absurd h (by simp)
      · intro m' stE h
        simp only [Except.error.injEq, Prod.mk.injEq] at h
        obtain ⟨-, h2⟩ := h
        subst h2; simp
    | ok u =>
      constructor
      · intro st1 c h
        simp only [Except.ok.injEq, Prod.mk.injEq] at h
        obtain ⟨h1, h2⟩ := h
        subst h1; subst h2; simp
      · intro m stE h; exact absurd h (by simp)

/-- What one `try` body does to the accumulated results: a fall-through
appends exactly one result for this product, `uploaded` or `skipped`; a
`break` and a throw leave the results untouched. -/
theorem itemBody_spec (env : OrchestratorEnv) (p : ShopwareProduct)
    (st : LoopSt) :
    (∀ st1, itemBody env p st = .ok (st1, .cont) →
      ∃ r, st1.results = st.results ++ [r] ∧ r.productId = p.id ∧
        (r.status = .uploaded ∨ r.status = .skipped)) ∧
    (∀ st1, itemBody env p st = .ok (st1, .quit) → st1.results = st.results) ∧
    (∀ m stE, itemBody env p st = .error (m, stE) → stE.results = st.results) := by
  refine ⟨?_, ?_, ?_⟩
  · intro st1 h
    unfold itemBody uploadSection at h
    try dsimp only [] at h
    repeat' split at h
    all_goals simp at h
    all_goals subst h
    all_goals exact ⟨_, rfl, rfl, by simp⟩
  · intro st1 h
    unfold itemBody uploadSection at h
    try dsimp only [] at h
    repeat' split at h
    all_goals simp at h
    all_goals subst h
    all_goals simp
  · intro m stE h
    unfold itemBody uploadSection at h
    try dsimp only [] at h
    repeat' split at h
    all_goals simp at h
    all_goals obtain ⟨-, h2⟩ := h
    all_goals subst h2
    all_goals simp

/-- Claim C3: a throw inside an item's `try` body is caught at the item
boundary, recorded as a `failed` result with the thrown message, and the
loop falls through to the next item; every fall-through records exactly one
result (status `uploaded`, `skipped` or `failed`) for the item, a `break`
records nothing, and a fall-through continues the loop on the remaining
items. -/
theorem per_item_error_isolation (env : OrchestratorEnv)
    (p : ShopwareProduct) (st : LoopSt) :
    (∀ m stE, itemBody env p st = .error (m, stE) →
      processItem env p st =
        ({ stE with results := stE.results ++
            [{ productId := p.id, productName := displayName p,
               status := .failed, error := some m }] }, .cont) ∧
      stE.results = st.results) ∧
    (∀ st1, processItem env p st = (st1, .cont) →
      ∃ r, st1.results = st.results ++ [r] ∧ r.productId = p.id ∧
        (r.status = .uploaded ∨ r.status = .skipped ∨ r.status = .failed)) ∧
    (∀ st1, processItem env p st = (st1, .quit) → st1.results = st.results) ∧
    (∀ rest st1, processItem env p st = (st1, .cont) →
      mainLoop env (p :: rest) st = mainLoop env rest st1) := by
  refine ⟨?_, ?_, ?_, ?_⟩
  · intro m stE h
    exact ⟨by simp [processItem, h], (itemBody_spec env p st).2.2 m stE h⟩
  · intro st1 h1
    cases hb : itemBody env p st with
    | ok r =>
      obtain ⟨st2, c⟩ := r
      have hp : processItem env p st = (st2, c) := by
        unfold processItem; rw [hb]
      rw [hp] at h1
      injection h1 with h2 h3
      subst h2; subst h3
      obtain ⟨r, hr, hid, hs⟩ := (itemBody_spec env p st).1 _ hb
      exact ⟨r, hr, hid, hs.elim Or.inl (fun hx => Or.inr (Or.inl hx))⟩
    | error e =>
      obtain ⟨m, stE⟩ := e
      have hp : processItem env p st =
          ({ stE with results := stE.results ++
              [{ productId := p.id, productName := displayName p,
                 status := .failed, error := some m }] }, .cont) := by
        unfold processItem; rw [hb]
      rw [hp] at h1
      injection h1 with h2 h3
      subst h2
      refine ⟨{ productId := p.id, productName := displayName p,
                status := .failed, error := some m }, ?_, rfl, Or.inr (Or.inr rfl)⟩
      simp [(itemBody_spec env p st).2.2 m stE hb]
  · intro st1 h1
    cases hb : itemBody env p st with
    | ok r =>
      obtain ⟨st2, c⟩ := r
      have hp : processItem env p st = (st2, c) := by
        unfold processItem; rw [hb]
      rw [hp] at h1
      injection h1 with h2 h3
      subst h2; subst h3
      exact (itemBody_spec env p st).2.1 _ hb
    | error e =>
      obtain ⟨m, stE⟩ := e
      have hp : processItem env p st =
          ({ stE with results := stE.results ++
              [{ productId := p.id, productName := displayName p,
                 status := .failed, error := some m }] }, .cont) := by
        unfold processItem; rw [hb]
      rw [hp] at h1
      injection h1 with h2 h3
      exact absurd h3 (by simp)
  · intro rest st1 h1
    simp [mainLoop, h1]

/-- Witness for C3: a batch run whose generation throws records a `failed`
result carrying the message and still processes the next item. -/
theorem per_item_error_isolation_witness :
    itemBody envGenFails (coverlessProduct "x") initSt =
      .error ("generation exploded", { initSt with genCalls := 1 }) ∧
    processItem envGenFails (coverlessProduct "x") initSt =
      ({ initSt with
           genCalls := 1,
           results := [{ productId := "x", productName := "x",
                         status := .failed,
                         error := some "generation exploded" }] }, .cont) ∧
    (mainLoop envGenFails [coverlessProduct "x", coverlessProduct "y"]
      initSt).results.length = 2 :=
  ⟨rfl,
   ((per_item_error_isolation envGenFails (coverlessProduct "x") initSt).1
     "generation exploded" { initSt with genCalls := 1 } rfl).1,
   rfl⟩

/-- Claim C4: in interactive mode, answering `q` at the first prompt of an
item (for a cached item and an uncached item alike) breaks the loop at
once without recording a result, so the remaining items contribute nothing
to the result set. -/
theorem interactive_quit (env : OrchestratorEnv) (p : ShopwareProduct)
    (st : LoopSt) (hb : env.batch = false)
    (hq : env.answers st.askCount = "q") :
    processItem env p st = ({ st with askCount := st.askCount + 1 }, .quit) ∧
    ∀ rest, mainLoop env (p :: rest) st =
      { st with askCount := st.askCount + 1 } := by
  have hp : processItem env p st =
      ({ st with askCount := st.askCount + 1 }, .quit) := by
    unfold processItem itemBody
    by_cases hc : cacheHas st.cache p.id <;> simp [hb, hq, hc]
  exact ⟨hp, fun rest => by simp [mainLoop, hp]⟩

/-- Witness for C4: the five-item interactive scenario; item 1 is uploaded,
answering `q` at item 2's prompt ends the run with exactly item 1's result. -/
theorem interactive_quit_witness :
    envC4.batch = false ∧ envC4.answers stC4after1.askCount = "q" ∧
    processItem envC4 (coverlessProduct "2") stC4after1 =
      ({ stC4after1 with askCount := 3 }, .quit) ∧
    mainLoop envC4 productsC4 initSt = { stC4after1 with askCount := 3 } ∧
    (mainLoop envC4 productsC4 initSt).results =
      [{ productId := "1", productName := "1", status := .uploaded }] :=
  ⟨rfl, rfl,
   (interactive_quit envC4 (coverlessProduct "2") stC4after1 rfl rfl).1,
   rfl, rfl⟩

/-- Claim C6: in batch mode a cached item is uploaded without calling the
generator; an uncached item calls the generator exactly once, caches the
bytes on success, and is then uploaded; and the concrete 3-item run (one
cached, two not, everything succeeding) yields exactly three `uploaded`
results with two generation calls and three upload-protocol calls. -/
theorem batch_cache_reuse :
    (∀ env p st, env.batch = true → cacheHas st.cache p.id = true →
      (processItem env p st).1.genCalls = st.genCalls ∧
      (processItem env p st).1.uploadCalls = st.uploadCalls + 1) ∧
    (∀ env p st, env.batch = true → cacheHas st.cache p.id = false →
      (processItem env p st).1.genCalls = st.genCalls + 1 ∧
      ∀ b, env.gen st.genCalls = .ok b →
        cacheHas (processItem env p st).1.cache p.id = true ∧
        (processItem env p st).1.uploadCalls = st.uploadCalls + 1) ∧
    mainLoop envC6
      [coverlessProduct "a", coverlessProduct "b", coverlessProduct "c"]
      stC6 =
      { cache := [("c", [7]), ("b", [7]), ("a", [0])],
        results :=
          [{ productId := "a", productName := "a", status := .uploaded },
           { productId := "b", productName := "b", status := .uploaded },
           { productId := "c", productName := "c", status := .uploaded }],
        askCount := 0, genCalls := 2, uploadCalls := 3, assignCalls := 3 } := by
  refine ⟨?_, ?_, rfl⟩
  · intro env p st hb hc
    have hbody : itemBody env p st = uploadSection env p st := by
      unfold itemBody; simp [hb, hc]
    unfold processItem
    rw [hbody]
    cases hu : uploadSection env p st with
    | ok r =>
      obtain ⟨st1, c⟩ := r
      obtain ⟨-, -, hgen, -, hupl⟩ := (uploadSection_spec env p st).1 st1 c hu
      exact ⟨hgen, hupl⟩
    | error e =>
      obtain ⟨m, stE⟩ := e
      obtain ⟨-, hgen, -, hupl⟩ := (uploadSection_spec env p st).2 m stE hu
      exact ⟨hgen, hupl⟩
  · intro env p st hb hc
    cases hg : env.gen st.genCalls with
    | error m =>
      have hbody : itemBody env p st =
          .error (m, { st with genCalls := st.genCalls + 1 }) := by
        unfold itemBody
        simp [hb, hc, hg]
      constructor
      · simp [processItem, hbody]
      · intro b hb2; simp at hb2
    | ok bytes =>
      have hbody : itemBody env p st =
          uploadSection env p
            { st with genCalls := st.genCalls + 1,
                      cache := cacheWrite st.cache p.id bytes } := by
        unfold itemBody
        simp [hb, hc, hg]
      constructor
      · unfold processItem
        rw [hbody]
        cases hu : uploadSection env p
            { st with genCalls := st.genCalls + 1,
                      cache := cacheWrite st.cache p.id bytes } with
        | ok r =>
          obtain ⟨st1, c⟩ := r
          obtain ⟨-, -, hgen, -, -⟩ := (uploadSection_spec env p _).1 st1 c hu
          simpa using hgen
        | error e =>
          obtain ⟨m, stE⟩ := e
          obtain ⟨-, hgen, -, -⟩ := (uploadSection_spec env p _).2 m stE hu
          simpa using hgen
      · intro b hb2
        unfold processItem
        rw [hbody]
        cases hu : uploadSection env p
            { st with genCalls := st.genCalls + 1,
                      cache := cacheWrite st.cache p.id bytes } with
        | ok r =>
          obtain ⟨st1, c⟩ := r
          obtain ⟨-, -, -, hcache, hupl⟩ := (uploadSection_spec env p _).1 st1 c hu
          constructor
          · rw [hcache]; simpa using cacheHas_write st.cache p.id bytes
          · simpa using hupl
        | error e =>
          obtain ⟨m, stE⟩ := e
          obtain ⟨-, -, hcache, hupl⟩ := (uploadSection_spec env p _).2 m stE hu
          constructor
          · rw [hcache]; simpa using cacheHas_write st.cache p.id bytes
          · simpa using hupl

/-- Witness for C6: the cached item `a` of the batch scenario is uploaded
with no generation call and one upload-protocol call. -/
theorem batch_cache_reuse_witness :
    envC6.batch = true ∧
    cacheHas stC6.cache (coverlessProduct "a").id = true ∧
    (processItem envC6 (coverlessProduct "a") stC6).1.genCalls =
      stC6.genCalls ∧
    (processItem envC6 (coverlessProduct "a") stC6).1.uploadCalls =
      stC6.uploadCalls + 1 :=
  ⟨rfl, rfl,
   (batch_cache_reuse.1 envC6 (coverlessProduct "a") stC6 rfl rfl).1,
   (batch_cache_reuse.1 envC6 (coverlessProduct "a") stC6 rfl rfl).2⟩

/-- Claim C8: at the upload prompt shown right after a fresh generation
for an uncached item, any answer other than `y` or `r` --- `q` included
--- records the item as `skipped` and falls through to the next item; `q`
does not break the loop at this prompt. -/
theorem fresh_prompt_nonyes_skips (env : OrchestratorEnv)
    (p : ShopwareProduct) (st : LoopSt) (a2 : String) (b : Bytes)
    (hb : env.batch = false)
    (hc : cacheHas st.cache p.id = false)
    (h1 : env.answers st.askCount = "y")
    (hg : env.gen st.genCalls = .ok b)
    (h2 : env.answers (st.askCount + 1) = a2)
    (hr : a2 ≠ "r") (hy : a2 ≠ "y") :
    processItem env p st =
      ({ st with askCount := st.askCount + 2,
                 genCalls := st.genCalls + 1,
                 cache := cacheWrite st.cache p.id b,
                 results := st.results ++
                   [{ productId := p.id, productName := displayName p,
                      status := .skipped }] }, .cont) := by
  unfold processItem itemBody pushSkipped
  simp [hb, hc, h1, hg, h2, hr, hy]

/-- Witness for C8: answering `q` at the fresh-generation upload prompt
yields a `skipped` result and continuation, not a quit. -/
theorem fresh_prompt_nonyes_skips_witness :
    envC8.batch = false ∧ cacheHas initSt.cache "x" = false ∧
    envC8.answers 0 = "y" ∧ envC8.gen 0 = .ok [3] ∧ envC8.answers 1 = "q" ∧
    processItem envC8 (coverlessProduct "x") initSt =
      ({ initSt with askCount := 2, genCalls := 1,
                     cache := cacheWrite initSt.cache "x" [3],
                     results := [{ productId := "x", productName := "x",
                                   status := .skipped }] }, .cont) :=
  ⟨rfl, rfl, rfl, rfl, rfl,
   fresh_prompt_nonyes_skips envC8 (coverlessProduct "x") initSt "q" [3]
     rfl rfl rfl rfl rfl (by decide) (by decide)⟩

/-- Witness for C9: an ok association response whose `location` ends in a
slash (empty last segment) makes the call fail with the location error and
issue no cover PATCH. -/
theorem assign_location_guard_witness :
    assocResEmptySegment.ok = true ∧
    productMediaIdOf assocResEmptySegment.location = some "" ∧
    assignMediaToProduct assocResEmptySegment okResponse =
      (.error .assocLocation, [.createAssoc]) :=
  ⟨rfl, rfl,
    (assign_location_guard assocResEmptySegment okResponse).1 rfl (Or.inr rfl)⟩

end ImageUploader
